import Mathlib

/-!
Verification of the project-initialization workflow of the `duyi-cli`
scaffolding tool (a JS command-line program).  The manifest-patching
logic (`changePackageJson`), the directory-removal helper (`removeDir`),
the dependency-installation wrapper (`npmInstall`) and the top-level
orchestrator (`initAction`) are embedded shallowly as pure Lean
functions; external effects (git clone, npm install, prompt answers,
filesystem state) are inputs, and the effects the orchestrator performs
are returned as an explicit trace together with the process outcome.
-/

/-! ## Strings: ASCII models of the JS string operations used -/

/-- Whitespace test used by the embedding of JS `String.prototype.trim`
(restricted to the ASCII whitespace characters; the manifest claims only
involve ASCII input). -/
def isWS (c : Char) : Bool :=
  c = ' ' || c = '\t' || c = '\n' || c = '\r' || c = '\x0b' || c = '\x0c'

/-- Model of JS `String.prototype.trim`: drop leading and trailing
whitespace. -/
def trimChars (s : String) : String :=
  String.mk (((s.data.dropWhile isWS).reverse.dropWhile isWS).reverse)

/-- Model of JS `String.prototype.split` with a one-character separator:
accumulator-based scan over the characters.  In particular the empty
string splits to `[""]`, exactly as in JS. -/
def splitAux (sep : Char) : List Char → List Char → List String
  | [], acc => [String.mk acc.reverse]
  | c :: cs, acc =>
      if c = sep then String.mk acc.reverse :: splitAux sep cs []
      else splitAux sep cs (c :: acc)

/-- JS `s.split(sep)` for a single-character separator. -/
def jsSplit (s : String) (sep : Char) : List String :=
  splitAux sep s.data []

/-! ## Manifest model and `changePackageJson` (utils.js) -/

/-- A JSON value as far as the manifest-patching code produces or reads
one: patch values are strings, and the `keywords` special case writes a
list of strings. -/
inductive JsonValue where
  | str (s : String)
  | list (l : List String)
deriving DecidableEq, Repr

/-- A JSON object (the parsed `package.json`): ordered association list
of fields, unique keys, insertion order preserved — the JS object
model. -/
def Manifest := List (String × JsonValue)

instance : DecidableEq Manifest := by
  unfold Manifest
  infer_instance

/-- Field read on a manifest (JS property access). -/
def getField (m : Manifest) (k : String) : Option JsonValue :=
  match m with
  | [] => none
  | (k₁, v) :: rest => if k₁ = k then some v else getField rest k

/-- Field write on a manifest (JS property assignment): update in place
when the key exists, otherwise append. -/
def setField (m : Manifest) (k : String) (v : JsonValue) : Manifest :=
  match m with
  | [] => [(k, v)]
  | (k₁, v₁) :: rest =>
      if k₁ = k then (k, v) :: rest else (k₁, v₁) :: setField rest k v

/-- One iteration of the `Object.keys(info).forEach` loop in
`changePackageJson` (utils.js): the field `name` falls back to the
trimmed project name when the supplied value is blank, `keywords` is
always split on commas, and any other field is overwritten only when its
value is non-blank after trimming. -/
def applyField (projectName : String) (pkg : Manifest) (item v : String) : Manifest :=
  if item = "name" then
    setField pkg item (.str (if trimChars v ≠ "" then trimChars v else projectName))
  else if item = "keywords" then
    setField pkg item (.list (jsSplit v ','))
  else if trimChars v ≠ "" then
    setField pkg item (.str v)
  else
    pkg

/-- The manifest transformation performed by `changePackageJson`
(utils.js): fold the patch fields, in iteration order, over the parsed
manifest.  The surrounding JSON file read and write are I/O and are kept
outside the model. -/
def changePackageJson (projectName : String) (pkg : Manifest)
    (info : List (String × String)) : Manifest :=
  info.foldl (fun acc kv => applyField projectName acc kv.1 kv.2) pkg

/-! ## Basic lemmas about field access -/

theorem getField_setField_self (m : Manifest) (k : String) (v : JsonValue) :
    getField (setField m k v) k = some v := by
  induction m with
  | nil => simp [setField, getField]
  | cons hd tl ih =>
      obtain ⟨k₁, v₁⟩ := hd
      by_cases h : k₁ = k
      · simp [setField, getField, h]
      · simp [setField, getField, h, ih]

theorem getField_setField_ne (m : Manifest) (k k₁ : String) (v : JsonValue)
    (h : k₁ ≠ k) : getField (setField m k v) k₁ = getField m k₁ := by
  have h₀ : k ≠ k₁ := Ne.symm h
  induction m with
  | nil => simp [setField, getField, h₀]
  | cons hd tl ih =>
      obtain ⟨k₂, v₂⟩ := hd
      by_cases h₂ : k₂ = k
      · subst h₂
        simp [setField, getField, h₀]
      · simp [setField, getField, h₂, ih]

theorem getField_applyField_ne (projectName : String) (pkg : Manifest)
    (item v k : String) (h : item ≠ k) :
    getField (applyField projectName pkg item v) k = getField pkg k := by
  unfold applyField
  by_cases h₁ : item = "name"
  · subst h₁; simp [getField_setField_ne _ _ _ _ (Ne.symm h)]
  · by_cases h₂ : item = "keywords"
    · subst h₂; simp [h₁, getField_setField_ne _ _ _ _ (Ne.symm h)]
    · by_cases h₃ : trimChars v = ""
      · simp [h₁, h₂, h₃]
      · simp [h₁, h₂, h₃, getField_setField_ne _ _ _ _ (Ne.symm h)]

theorem changePackageJson_append (projectName : String) (pkg : Manifest)
    (l₁ l₂ : List (String × String)) :
    changePackageJson projectName pkg (l₁ ++ l₂)
      = changePackageJson projectName (changePackageJson projectName pkg l₁) l₂ := by
  unfold changePackageJson
  exact List.foldl_append _ _ _ _

theorem getField_changePackageJson_not_mem (projectName : String) (pkg : Manifest)
    (info : List (String × String)) (k : String)
    (h : k ∉ info.map Prod.fst) :
    getField (changePackageJson projectName pkg info) k = getField pkg k := by
  induction info generalizing pkg with
  | nil => rfl
  | cons hd tl ih =>
      obtain ⟨item, v⟩ := hd
      simp only [List.map_cons, List.mem_cons, not_or] at h
      have h₁ : item ≠ k := fun hh => h.1 hh.symm
      calc getField (changePackageJson projectName pkg ((item, v) :: tl)) k
          = getField (changePackageJson projectName (applyField projectName pkg item v) tl) k := rfl
        _ = getField (applyField projectName pkg item v) k := ih _ h.2
        _ = getField pkg k := getField_applyField_ne _ _ _ _ _ h₁

/-! ## Orchestrator model (interactive.js `initAction` and its helpers) -/

/-- The punctuation part of the illegal-character class in the project
name validation regex of `initAction` (interactive.js): backtick, tilde,
exclamation mark, at sign, hash, dollar, percent, ampersand, caret,
asterisk, parentheses, square brackets, backslash, semicolon, colon,
dot, less-than, greater-than, question mark. -/
def illegalPunct : List Char :=
  ['\x60', '~', '!', '@', '#', '$', '%', '&', '^', '*', '(', ')',
   '[', ']', '\\', ';', ':', '.', '<', '>', '?']

/-- CJK test of the validation regex: the range U+4E00 to U+9FFF. -/
def isCJK (c : Char) : Bool :=
  0x4E00 ≤ c.toNat && c.toNat ≤ 0x9FFF

/-- A character matched by the validation regex of `initAction`. -/
def isIllegalChar (c : Char) : Bool :=
  isCJK c || illegalPunct.contains c

/-- The project-name validation of `initAction` (interactive.js): the
name is rejected when some character matches the regex. -/
def nameInvalid (s : String) : Bool :=
  s.data.any isIllegalChar

/-- A template registry entry (constants.js): display name, remote
repository locator, description. -/
structure Template where
  name : String
  value : String
  desc : String
deriving DecidableEq, Repr

/-- The `create` command options parsed by commander (index.js):
`--template`, `--force`, `--ignore`. -/
structure CreateOptions where
  template : Option String
  force : Bool
  ignore : Bool
deriving DecidableEq, Repr

/-- The external world as `initAction` observes it in one invocation:
availability of git, existence of the destination directory, the answer
to the delete-confirmation prompt, the template chosen interactively
when no `--template` flag is given, the outcome of the underlying
recursive delete, whether the clone succeeds, and the exit code of the
package-manager install. -/
structure Env where
  gitAvailable : Bool
  destExists : Bool
  confirmDelete : Bool
  chooseAnswer : String
  removeResult : Except String Unit
  cloneOk : Bool
  installCode : Nat

/-- The externally visible effects of one `initAction` run that touch
the filesystem or spawn processes, plus the guidance message printed on
an unknown template (purely informational console output is otherwise
not traced). -/
inductive Effect where
  | printListHint
  | removeDirCall (dir : String)
  | clone (repo : String) (dest : String)
  | changeManifest (dest : String)
  | npmInstall (dir : String)
deriving DecidableEq, Repr

/-- How the invocation ends: `ret` means `initAction` returns normally
(the process then terminates with status 0), `exit c` means the process
is terminated explicitly with status `c`. -/
inductive Outcome where
  | ret
  | exit (code : Nat)
deriving DecidableEq, Repr

/-- `removeDir` (utils.js): starts a spinner, awaits the recursive
delete of the directory, and on failure marks the spinner failed, logs
the error and returns — the rejection is swallowed, so the promise
`removeDir` returns always resolves.  The outcome of the underlying
`fs.remove` is the argument. -/
def removeDir (fsRemoveResult : Except String Unit) : Except String Unit :=
  match fsRemoveResult with
  | .ok _ => .ok ()
  | .error _ => .ok ()

/-- `npmInstall` (utils.js): runs the package-manager install in the
project directory; a non-zero exit code is reported and the process is
terminated via `shell.exit(1)`; otherwise the success messages are
printed and the function then also calls `shell.exit(1)`. -/
def npmInstall (installCode : Nat) : Outcome :=
  if installCode ≠ 0 then
    .exit 1
  else
    .exit 1

/-- Template resolution step of `initAction` (interactive.js): the flag
value is tested for JS truthiness, so both a missing flag and the falsy
empty-string value lead to the interactive choice; a truthy value is
looked up in the registry by display name, and a miss is an error (the
list hint is printed). -/
def resolveRepository (tmpls : List Template) (optTemplate : Option String)
    (chooseAnswer : String) : Except Unit String :=
  match optTemplate with
  | some t =>
      if t = "" then
        .ok chooseAnswer
      else
        match tmpls.find? (fun tp => tp.name == t) with
        | some tp => .ok tp.value
        | none => .error ()
  | none => .ok chooseAnswer

/-- Tail of `initAction` after the destination step (interactive.js):
clone the template (fatal `shell.exit(1)` on failure), run the
manifest-configuration step unless `--ignore` was given, then run
`npmInstall`.  `pre` is the effect trace accumulated so far. -/
def cloneAndFinish (pre : List Effect) (repository : String) (name : String)
    (opt : CreateOptions) (env : Env) : List Effect × Outcome :=
  if env.cloneOk then
    let effs₁ := pre ++ [Effect.clone repository name]
    let effs₂ := if !opt.ignore then effs₁ ++ [Effect.changeManifest name] else effs₁
    (effs₂ ++ [Effect.npmInstall name], npmInstall env.installCode)
  else
    (pre ++ [Effect.clone repository name], .exit 1)

/-- The `initAction` orchestrator (interactive.js): environment check,
name validation, template resolution, destination-conflict handling,
then clone, optional manifest configuration and install.  The branches
awaiting `removeDir` also model what an unhandled rejection would do
(process abort); those branches are unreachable because `removeDir`
always resolves. -/
def initAction (tmpls : List Template) (name : String) (opt : CreateOptions)
    (env : Env) : List Effect × Outcome :=
  if !env.gitAvailable then
    ([], .exit 1)
  else if nameInvalid name then
    ([], .ret)
  else
    match resolveRepository tmpls opt.template env.chooseAnswer with
    | .error _ => ([Effect.printListHint], .ret)
    | .ok repository =>
        if env.destExists && !opt.force then
          if env.confirmDelete then
            match removeDir env.removeResult with
            | .ok _ => cloneAndFinish [Effect.removeDirCall name] repository name opt env
            | .error _ => ([Effect.removeDirCall name], .exit 1)
          else
            ([], .ret)
        else if env.destExists && opt.force then
          match removeDir env.removeResult with
          | .ok _ => cloneAndFinish [Effect.removeDirCall name] repository name opt env
          | .error _ => ([Effect.removeDirCall name], .exit 1)
        else
          cloneAndFinish [] repository name opt env

/-- Modelled from the spec: the template registry `templates` lives in
constants.js, which is not among the provided sources; §3 and §4.1
describe it as a static list of TemplateDescriptor records with unique
names, and the scenario in §8 assumes an entry named `vue`.  This is a
representative such registry. -/
def specTemplates : List Template :=
  [{ name := "vue", value := "vue-template-repository", desc := "vue template" }]

/-! ## Helper characterizations of the three `applyField` branches -/

theorem applyField_name (projectName : String) (pkg : Manifest) (v : String) :
    applyField projectName pkg "name" v
      = setField pkg "name"
          (.str (if trimChars v ≠ "" then trimChars v else projectName)) := by
  unfold applyField
  rw [if_pos rfl]

theorem applyField_keywords (projectName : String) (pkg : Manifest) (v : String) :
    applyField projectName pkg "keywords" v
      = setField pkg "keywords" (.list (jsSplit v ',')) := by
  unfold applyField
  rw [if_neg (by decide : ¬("keywords" : String) = "name"), if_pos rfl]

theorem applyField_other (projectName : String) (pkg : Manifest) (item v : String)
    (h₁ : item ≠ "name") (h₂ : item ≠ "keywords") :
    applyField projectName pkg item v
      = if trimChars v ≠ "" then setField pkg item (.str v) else pkg := by
  unfold applyField
  rw [if_neg h₁, if_neg h₂]

theorem changePackageJson_cons (projectName : String) (pkg : Manifest)
    (item v : String) (rest : List (String × String)) :
    changePackageJson projectName pkg ((item, v) :: rest)
      = changePackageJson projectName (applyField projectName pkg item v) rest := rfl

/-! ## Claims about the manifest patch -/

/-- C4: for every manifest and every patch carrying a blank (empty or
whitespace-only) value for the field `name`, with no later `name` entry
in the patch, `changePackageJson` sets the manifest field `name` to the
project directory name rather than to the blank string. -/
theorem c4_blank_name_falls_back_to_project_name
    (projectName : String) (pkg : Manifest) (v : String)
    (pre post : List (String × String))
    (hv : trimChars v = "")
    (hpost : "name" ∉ post.map Prod.fst) :
    getField (changePackageJson projectName pkg (pre ++ ("name", v) :: post)) "name"
      = some (.str projectName) := by
  rw [changePackageJson_append, changePackageJson_cons,
    getField_changePackageJson_not_mem _ _ _ _ hpost, applyField_name]
  simp [hv, getField_setField_self]

/-- Witness for C4 at a concrete input: a patch with a whitespace-only
`name` value applied to a manifest whose `name` was `old` yields the
project name `myapp`. -/
theorem c4_blank_name_witness :
    trimChars "  " = ""
      ∧ "name" ∉ ([("description", "d")] : List (String × String)).map Prod.fst
      ∧ getField (changePackageJson "myapp" [("name", .str "old")]
          ([("version", "1.0.0")] ++ ("name", "  ") :: [("description", "d")])) "name"
        = some (.str "myapp") :=
  ⟨by decide, by decide,
    c4_blank_name_falls_back_to_project_name "myapp" [("name", .str "old")] "  "
      [("version", "1.0.0")] [("description", "d")] (by decide) (by decide)⟩

/-- C5: for every manifest, a patch carrying `keywords = "a,b,c"` (with
no later `keywords` entry) yields a manifest whose `keywords` field is
the list `["a", "b", "c"]`, in the comma-separated input order. -/
theorem c5_keywords_comma_split
    (projectName : String) (pkg : Manifest)
    (pre post : List (String × String))
    (hpost : "keywords" ∉ post.map Prod.fst) :
    getField (changePackageJson projectName pkg
        (pre ++ ("keywords", "a,b,c") :: post)) "keywords"
      = some (.list ["a", "b", "c"]) := by
  rw [changePackageJson_append, changePackageJson_cons,
    getField_changePackageJson_not_mem _ _ _ _ hpost, applyField_keywords,
    getField_setField_self]
  decide

/-- Witness for C5 at a concrete input. -/
theorem c5_keywords_witness :
    "keywords" ∉ (([] : List (String × String))).map Prod.fst
      ∧ getField (changePackageJson "myapp" [("keywords", .str "x")]
          ([] ++ ("keywords", "a,b,c") :: [])) "keywords"
        = some (.list ["a", "b", "c"]) :=
  ⟨by decide, c5_keywords_comma_split "myapp" [("keywords", .str "x")] [] [] (by decide)⟩

/-- C6: a patch field other than `name` and `keywords` whose value is
blank (empty or whitespace-only after trimming) contributes nothing:
the whole patch behaves as if the field were absent, so the manifest
value of that field is left unchanged; and a non-blank value for such a
field does overwrite it. -/
theorem c6_blank_other_field_skipped :
    (∀ (projectName : String) (pkg : Manifest) (item v : String)
        (pre post : List (String × String)),
        item ≠ "name" → item ≠ "keywords" → trimChars v = "" →
        changePackageJson projectName pkg (pre ++ (item, v) :: post)
          = changePackageJson projectName pkg (pre ++ post))
    ∧ (∀ (projectName : String) (pkg : Manifest) (item v : String),
        item ≠ "name" → item ≠ "keywords" → trimChars v ≠ "" →
        getField (changePackageJson projectName pkg [(item, v)]) item
          = some (.str v)) := by
  constructor
  · intro projectName pkg item v pre post h₁ h₂ hv
    rw [changePackageJson_append, changePackageJson_append, changePackageJson_cons,
      applyField_other _ _ _ _ h₁ h₂]
    simp [hv]
  · intro projectName pkg item v h₁ h₂ hv
    rw [changePackageJson_cons, applyField_other _ _ _ _ h₁ h₂, if_pos hv]
    exact getField_setField_self _ _ _

/-- Witness for C6 at concrete inputs: a whitespace-only `description`
leaves the manifest unchanged, and a non-blank one overwrites it. -/
theorem c6_blank_other_field_witness :
    changePackageJson "myapp" [("description", .str "old")]
        ([] ++ ("description", " ") :: []) = [("description", .str "old")]
      ∧ getField (changePackageJson "myapp" [("description", .str "old")]
          [("description", "new")]) "description" = some (.str "new") :=
  ⟨c6_blank_other_field_skipped.1 "myapp" [("description", .str "old")]
      "description" " " [] [] (by decide) (by decide) (by decide),
    c6_blank_other_field_skipped.2 "myapp" [("description", .str "old")]
      "description" "new" (by decide) (by decide) (by decide)⟩

/-- C7: applying an empty patch returns the manifest unchanged, and a
field not named in the patch is never modified by `changePackageJson`. -/
theorem c7_empty_patch_identity :
    (∀ (projectName : String) (pkg : Manifest),
        changePackageJson projectName pkg [] = pkg)
    ∧ (∀ (projectName : String) (pkg : Manifest)
        (info : List (String × String)) (k : String),
        k ∉ info.map Prod.fst →
        getField (changePackageJson projectName pkg info) k = getField pkg k) := by
  constructor
  · intro projectName pkg
    rfl
  · intro projectName pkg info k hk
    exact getField_changePackageJson_not_mem _ _ _ _ hk

/-- Witness for C7 at concrete inputs: the empty patch is the identity,
and a patch touching only `description` leaves `version` unread. -/
theorem c7_empty_patch_witness :
    changePackageJson "myapp" [("version", .str "1.0.0")] [] = [("version", .str "1.0.0")]
      ∧ getField (changePackageJson "myapp" [("version", .str "1.0.0")]
          [("description", "d")]) "version"
        = getField [("version", .str "1.0.0")] "version" :=
  ⟨c7_empty_patch_identity.1 "myapp" [("version", .str "1.0.0")],
    c7_empty_patch_identity.2 "myapp" [("version", .str "1.0.0")]
      [("description", "d")] "version" (by decide)⟩

/-- C9: the skip-blank rule does not apply to `keywords`: a patch
carrying the empty string for `keywords` (with no later `keywords`
entry) sets the field to the one-element list containing the empty
string, for every manifest, rather than leaving it unchanged. -/
theorem c9_empty_keywords_not_skipped
    (projectName : String) (pkg : Manifest)
    (pre post : List (String × String))
    (hpost : "keywords" ∉ post.map Prod.fst) :
    getField (changePackageJson projectName pkg
        (pre ++ ("keywords", "") :: post)) "keywords"
      = some (.list [""]) := by
  rw [changePackageJson_append, changePackageJson_cons,
    getField_changePackageJson_not_mem _ _ _ _ hpost, applyField_keywords,
    getField_setField_self]
  decide

/-- Witness for C9 at a concrete input: empty `keywords` replaces a
pre-existing keywords value with the list holding one empty string. -/
theorem c9_empty_keywords_witness :
    "keywords" ∉ (([] : List (String × String))).map Prod.fst
      ∧ getField (changePackageJson "myapp" [("keywords", .list ["old"])]
          ([] ++ ("keywords", "") :: [])) "keywords"
        = some (.list [""]) :=
  ⟨by decide, c9_empty_keywords_not_skipped "myapp" [("keywords", .list ["old"])] [] [] (by decide)⟩

/-! ## Trace shape of the clone-configure-install tail -/

theorem cloneAndFinish_trace (pre : List Effect) (repository : String)
    (name : String) (opt : CreateOptions) (env : Env) :
    (cloneAndFinish pre repository name opt env).1
      = pre ++ Effect.clone repository name ::
          (if env.cloneOk then
            (if !opt.ignore then [Effect.changeManifest name] else [])
              ++ [Effect.npmInstall name]
          else []) := by
  unfold cloneAndFinish
  by_cases hc : env.cloneOk
  · by_cases hi : opt.ignore <;> simp [hc, hi]
  · simp [hc]

/-! ## Claims about the orchestrator -/

/-- C1: the scenario `create myapp --template vue --ignore` on a clean
working directory, with git available and a clone and an install that
succeed.  The registry lookup succeeds, fetch is invoked with the vue
locator and the myapp path, the manifest-configuration step is skipped
and install is invoked — but the process then exits with status 1, not
0: `npmInstall` terminates the process with code 1 unconditionally, even
after printing its success messages. -/
theorem c1_successful_create_exits_one :
    initAction specTemplates "myapp"
        { template := some "vue", force := false, ignore := true }
        { gitAvailable := true, destExists := false, confirmDelete := false,
          chooseAnswer := "", removeResult := .ok (), cloneOk := true,
          installCode := 0 }
      = ([Effect.clone "vue-template-repository" "myapp", Effect.npmInstall "myapp"],
          Outcome.exit 1) := by
  rfl

/-- C2: any project name containing a CJK character (U+4E00 to U+9FFF)
or one of the illegal punctuation characters is rejected: when git is
available, `initAction` returns early with an empty effect trace — no
directory removal, no clone, no manifest write, no install. -/
theorem c2_illegal_name_rejected_without_mutation
    (tmpls : List Template) (name : String) (opt : CreateOptions) (env : Env)
    (hgit : env.gitAvailable = true)
    (hbad : ∃ c ∈ name.data, isCJK c = true ∨ c ∈ illegalPunct) :
    initAction tmpls name opt env = ([], Outcome.ret) := by
  have hinv : nameInvalid name = true := by
    obtain ⟨c, hc, hill⟩ := hbad
    unfold nameInvalid
    rw [List.any_eq_true]
    refine ⟨c, hc, ?_⟩
    unfold isIllegalChar
    rcases hill with h | h
    · simp [h]
    · have hc₂ : illegalPunct.contains c = true := List.elem_iff.mpr h
      rw [hc₂, Bool.or_true]
  simp [initAction, hgit, hinv]

/-- Witness for C2 at a concrete input: the name `my.app` contains a
dot, and the run returns early with no effects. -/
theorem c2_illegal_name_witness :
    (∃ c ∈ ("my.app" : String).data, isCJK c = true ∨ c ∈ illegalPunct)
      ∧ initAction specTemplates "my.app"
          { template := some "vue", force := false, ignore := false }
          { gitAvailable := true, destExists := false, confirmDelete := false,
            chooseAnswer := "", removeResult := .ok (), cloneOk := true,
            installCode := 0 }
        = ([], Outcome.ret) :=
  ⟨by decide,
    c2_illegal_name_rejected_without_mutation specTemplates "my.app"
      { template := some "vue", force := false, ignore := false }
      { gitAvailable := true, destExists := false, confirmDelete := false,
        chooseAnswer := "", removeResult := .ok (), cloneOk := true,
        installCode := 0 }
      rfl (by decide)⟩

/-- C3 counterexample: the empty string is a `--template` value that
matches no registered template name, yet the orchestrator does not print
the hint and does not return early — `option.template` is falsy in JS,
so the run takes the interactive-choice branch and a clone of the
interactively chosen repository is attempted. -/
theorem c3_empty_template_counterexample :
    specTemplates.find? (fun tp => tp.name == "") = none
      ∧ initAction specTemplates "myapp"
          { template := some "", force := false, ignore := true }
          { gitAvailable := true, destExists := false, confirmDelete := false,
            chooseAnswer := "chosen-repository", removeResult := .ok (),
            cloneOk := true, installCode := 0 }
        ≠ ([Effect.printListHint], Outcome.ret)
      ∧ Effect.clone "chosen-repository" "myapp" ∈ (initAction specTemplates "myapp"
          { template := some "", force := false, ignore := true }
          { gitAvailable := true, destExists := false, confirmDelete := false,
            chooseAnswer := "chosen-repository", removeResult := .ok (),
            cloneOk := true, installCode := 0 }).1 := by
  refine ⟨by decide, by decide, by decide⟩

/-- C3 (amended): a non-empty (JS-truthy) `--template` value matching no
registered template name makes the orchestrator print the hint pointing
at the `list` command and return early: the effect trace holds only that
hint — no clone and no other filesystem mutation is attempted.  The
empty string is excluded: it is falsy, so the code takes the
interactive-choice branch instead. -/
theorem c3_unknown_template_early_return
    (tmpls : List Template) (name t : String) (opt : CreateOptions) (env : Env)
    (hgit : env.gitAvailable = true)
    (hname : nameInvalid name = false)
    (ht : opt.template = some t)
    (htne : t ≠ "")
    (hfind : tmpls.find? (fun tp => tp.name == t) = none) :
    initAction tmpls name opt env = ([Effect.printListHint], Outcome.ret) := by
  simp [initAction, resolveRepository, hgit, hname, ht, htne, hfind]

/-- Witness for C3 at a concrete input: `react` is not in the registry,
the run prints the hint and returns. -/
theorem c3_unknown_template_witness :
    specTemplates.find? (fun tp => tp.name == "react") = none
      ∧ initAction specTemplates "myapp"
          { template := some "react", force := false, ignore := false }
          { gitAvailable := true, destExists := false, confirmDelete := false,
            chooseAnswer := "", removeResult := .ok (), cloneOk := true,
            installCode := 0 }
        = ([Effect.printListHint], Outcome.ret) :=
  ⟨by decide,
    c3_unknown_template_early_return specTemplates "myapp" "react"
      { template := some "react", force := false, ignore := false }
      { gitAvailable := true, destExists := false, confirmDelete := false,
        chooseAnswer := "", removeResult := .ok (), cloneOk := true,
        installCode := 0 }
      rfl (by decide) rfl (by decide) (by decide)⟩

/-- C8: when the destination directory exists, `--force` is not given
and the user declines the delete confirmation, the command returns early
with an empty effect trace: the existing directory is untouched and
neither fetch nor install is invoked. -/
theorem c8_declined_overwrite_aborts
    (tmpls : List Template) (name t : String) (tp : Template)
    (opt : CreateOptions) (env : Env)
    (hgit : env.gitAvailable = true)
    (hname : nameInvalid name = false)
    (ht : opt.template = some t)
    (hfind : tmpls.find? (fun x => x.name == t) = some tp)
    (hexists : env.destExists = true)
    (hforce : opt.force = false)
    (hconfirm : env.confirmDelete = false) :
    initAction tmpls name opt env = ([], Outcome.ret) := by
  by_cases hte : t = "" <;>
    simp [initAction, resolveRepository, hgit, hname, ht, hte, hfind, hexists,
      hforce, hconfirm]

/-- Witness for C8 at a concrete input. -/
theorem c8_declined_overwrite_witness :
    specTemplates.find? (fun x => x.name == "vue")
        = some { name := "vue", value := "vue-template-repository", desc := "vue template" }
      ∧ initAction specTemplates "myapp"
          { template := some "vue", force := false, ignore := false }
          { gitAvailable := true, destExists := true, confirmDelete := false,
            chooseAnswer := "", removeResult := .ok (), cloneOk := true,
            installCode := 0 }
        = ([], Outcome.ret) :=
  ⟨by decide,
    c8_declined_overwrite_aborts specTemplates "myapp" "vue"
      { name := "vue", value := "vue-template-repository", desc := "vue template" }
      { template := some "vue", force := false, ignore := false }
      { gitAvailable := true, destExists := true, confirmDelete := false,
        chooseAnswer := "", removeResult := .ok (), cloneOk := true,
        installCode := 0 }
      rfl (by decide) rfl (by decide) rfl rfl rfl⟩

/-- C10: `removeDir` always resolves, for every outcome of the
underlying recursive delete — a deletion failure is only logged, never
propagated — and consequently, in the destination-conflict path (the
directory exists and either `--force` is given or the user confirms the
deletion), the orchestrator always proceeds to the fetch step after the
removal attempt, whatever the removal outcome was.  The fetch target is
whatever locator the template-resolution step produced, so both the
`--template` path and the interactive-choice path are covered. -/
theorem c10_removeDir_resolves_and_fetch_follows :
    (∀ r : Except String Unit, removeDir r = .ok ())
    ∧ (∀ (tmpls : List Template) (name repo : String)
        (opt : CreateOptions) (env : Env),
        env.gitAvailable = true → nameInvalid name = false →
        resolveRepository tmpls opt.template env.chooseAnswer = .ok repo →
        env.destExists = true →
        opt.force = true ∨ env.confirmDelete = true →
        Effect.removeDirCall name ∈ (initAction tmpls name opt env).1
          ∧ Effect.clone repo name ∈ (initAction tmpls name opt env).1) := by
  constructor
  · intro r
    cases r <;> rfl
  · intro tmpls name repo opt env hgit hname hres hexists hdisj
    have hrm : removeDir env.removeResult = .ok () := by
      cases env.removeResult <;> rfl
    by_cases hf : opt.force = true
    · have hred : initAction tmpls name opt env
          = cloneAndFinish [Effect.removeDirCall name] repo name opt env := by
        simp [initAction, hgit, hname, hres, hexists, hf, hrm]
      rw [hred, cloneAndFinish_trace]
      exact ⟨by simp, by simp⟩
    · have hf₀ : opt.force = false := by
        cases hv : opt.force
        · rfl
        · exact absurd hv hf
      have hcd : env.confirmDelete = true := by
        rcases hdisj with h | h
        · exact absurd h hf
        · exact h
      have hred : initAction tmpls name opt env
          = cloneAndFinish [Effect.removeDirCall name] repo name opt env := by
        simp [initAction, hgit, hname, hres, hexists, hf₀, hcd, hrm]
      rw [hred, cloneAndFinish_trace]
      exact ⟨by simp, by simp⟩

/-- Witness for C10 at a concrete input: the underlying delete fails
(rejected promise), yet `removeDir` resolves and the run still reaches
the clone step. -/
theorem c10_removeDir_witness :
    removeDir (.error "boom") = .ok ()
      ∧ (Effect.removeDirCall "myapp" ∈ (initAction specTemplates "myapp"
            { template := some "vue", force := false, ignore := true }
            { gitAvailable := true, destExists := true, confirmDelete := true,
              chooseAnswer := "", removeResult := .error "boom", cloneOk := true,
              installCode := 0 }).1
        ∧ Effect.clone "vue-template-repository" "myapp" ∈ (initAction specTemplates "myapp"
            { template := some "vue", force := false, ignore := true }
            { gitAvailable := true, destExists := true, confirmDelete := true,
              chooseAnswer := "", removeResult := .error "boom", cloneOk := true,
              installCode := 0 }).1) :=
  ⟨c10_removeDir_resolves_and_fetch_follows.1 (.error "boom"),
    c10_removeDir_resolves_and_fetch_follows.2 specTemplates "myapp"
      "vue-template-repository"
      { template := some "vue", force := false, ignore := true }
      { gitAvailable := true, destExists := true, confirmDelete := true,
        chooseAnswer := "", removeResult := .error "boom", cloneOk := true,
        installCode := 0 }
      rfl (by decide) rfl rfl (Or.inr rfl)⟩
